import Mathlib

/-!
Shallow embedding of the CrocSafeNT repository (GOVHACK folder):
`Combined_Map_Crocs_Dataset.py`, `highlighted_map.py` and
`crocodile_capture_data.py`, together with theorems settling the claims
about their behaviour.

Modelling conventions:
* A geolocator (`geopy.geocoders.Nominatim` instance) is abstracted as a
  function from coordinates and the per-call attempt index to the outcome
  of one `geolocator.reverse` call: a location (possibly `None`), a
  `GeocoderTimedOut` exception, or a `GeocoderUnavailable` exception.
* `time.sleep` calls are recorded in a trace rather than executed.
* A folium map is the list of annotations added to it, in insertion order.
* Python floats that only ever flow through the scripts unchanged
  (latitudes and longitudes) are modelled as rationals.
* Python ints are modelled as `Int`; `range(n)` for `n ≤ 0` is empty,
  matching `Int.toNat`.
-/

namespace CrocSafeNT

/-- A geopy `Location` object, reduced to the only field the scripts read. -/
structure Location where
  address : String
deriving DecidableEq, Repr

/-- Outcome of one `geolocator.reverse(coordinates, timeout=timeout)` call:
a location (geopy may return `None` when nothing is found), a
`GeocoderTimedOut` exception, or a `GeocoderUnavailable` exception. -/
inductive GeoResult
  | ok (loc : Option Location)
  | timedOut
  | unavailable
deriving DecidableEq, Repr

/-- A geolocator: for given coordinates, the outcome of the `attempt`-th
`reverse` call made for those coordinates. -/
def Geolocator : Type := Rat × Rat → Nat → GeoResult

/-- Observable behaviour of one run of `reverse_geocode_with_retry`:
the returned value, the number of calls made to the geocoding service,
and the list of backoff sleep durations requested, in order. -/
structure RetryTrace where
  result : Option Location
  calls : Nat
  sleeps : List Nat
deriving DecidableEq, Repr

/-- The `for attempt in range(retries)` loop body of
`reverse_geocode_with_retry` (identical in both map scripts):
on success return the location immediately; on `GeocoderTimedOut` sleep
`2 ** attempt` and retry; on `GeocoderUnavailable` break out of the loop;
when attempts are exhausted fall through to `return None`. -/
def retryAux (reverse : Nat → GeoResult) : Nat → Nat → RetryTrace
  | _, 0 => { result := none, calls := 0, sleeps := [] }
  | attempt, remaining + 1 =>
    match reverse attempt with
    | .ok loc => { result := loc, calls := 1, sleeps := [] }
    | .timedOut =>
      { result := (retryAux reverse (attempt + 1) remaining).result,
        calls := (retryAux reverse (attempt + 1) remaining).calls + 1,
        sleeps := 2 ^ attempt :: (retryAux reverse (attempt + 1) remaining).sleeps }
    | .unavailable => { result := none, calls := 1, sleeps := [] }

/-- `reverse_geocode_with_retry(geolocator, coordinates, retries, timeout)`
from both map scripts.  `retries` is a Python int; the loop runs over
`range(retries)`, which is empty when `retries ≤ 0`. -/
def reverse_geocode_with_retry (geolocator : Geolocator)
    (coordinates : Rat × Rat) (retries : Int) : RetryTrace :=
  retryAux (geolocator coordinates) 0 retries.toNat

/-- A folium marker as built by `add_marker_to_map`: its location and its
popup text.  A folium marker's popup is optional (`folium.Marker` may be
built without one), hence the `Option`. -/
structure Marker where
  lat : Rat
  lon : Rat
  popup : Option String
deriving DecidableEq, Repr

/-- `add_marker_to_map(map_obj, lat, lon, address)` from
`Combined_Map_Crocs_Dataset.py`: appends to the map one marker at
`(lat, lon)` whose popup text is `f"Address: {address}"`. -/
def add_marker_to_map (map_obj : List Marker) (lat lon : Rat)
    (address : String) : List Marker :=
  map_obj ++ [{ lat := lat, lon := lon, popup := some ("Address: " ++ address) }]

/-- One CSV row as the scripts read it: `row['name']`, `row['latitude']`,
`row['longitude']`.  A `none` field models a missing column, which makes
the corresponding subscript raise `KeyError`. -/
structure Row where
  name : Option String
  latitude : Option Rat
  longitude : Option Rat
deriving DecidableEq, Repr

/-- The `try:`/`except KeyError:` body run for one row inside
`process_csv` of `Combined_Map_Crocs_Dataset.py`: read the three columns
(raising `KeyError` on a missing one, which is caught and skips the row),
reverse-geocode with the default `retries=3`, substitute
`"Address not found"` when no location came back, and add one marker.
Returns the markers this row adds to the map. -/
def processRow (geolocator : Geolocator) (row : Row) : List Marker :=
  match row.name, row.latitude, row.longitude with
  | some _, some lat, some lon =>
    add_marker_to_map [] lat lon
      (match (reverse_geocode_with_retry geolocator (lat, lon) 3).result with
        | some loc => loc.address
        | none => "Address not found")
  | _, _, _ => []

/-- Python `range(0, stop, step)` for `step ≥ 1`: the multiples of `step`
below `stop`, in increasing order.  (`step = 0` raises in Python and is
outside the model.) -/
def pyRange (stop step : Nat) : List Nat :=
  (List.range ((stop + step - 1) / step)).map (· * step)

/-- `df.iloc[start:end]` with `end = min(start + batch_size, len(df))`:
the batch of records starting at `start`. -/
def batchAt {α : Type} (l : List α) (batch_size start : Nat) : List α :=
  (l.drop start).take (min (start + batch_size) l.length - start)

/-- Observable behaviour of one `process_csv` run of the combined-map
script: the markers on the saved map in insertion order, and the number
of fixed 2-second `time.sleep(2)` pauses performed by the batch loop. -/
structure MapTrace where
  markers : List Marker
  batchSleeps : Nat
deriving DecidableEq, Repr

/-- `process_csv(file_path, batch_size)` from
`Combined_Map_Crocs_Dataset.py`, with the CSV contents abstracted as
`rows`: iterate over the batches `df.iloc[start:end]` for
`start in range(0, len(df), batch_size)`, process every row of each
batch in order, and end every batch iteration with `time.sleep(2)`. -/
def process_csv (geolocator : Geolocator) (rows : List Row)
    (batch_size : Nat) : MapTrace :=
  { markers := ((pyRange rows.length batch_size).map
      (fun s => (batchAt rows batch_size s).flatMap (processRow geolocator))).flatten,
    batchSleeps := (pyRange rows.length batch_size).length }

/-- A folium circle as built by `add_circle_to_map` in
`highlighted_map.py`: location, radius in metres and colour. -/
structure Circle where
  lat : Rat
  lon : Rat
  radius : Nat
  color : String
deriving DecidableEq, Repr

/-- `add_circle_to_map(map_obj, lat, lon)` from `highlighted_map.py`:
appends a red circle of radius 200 and an orange circle of radius 500,
both at `(lat, lon)`. -/
def add_circle_to_map (map_obj : List Circle) (lat lon : Rat) : List Circle :=
  map_obj ++ [{ lat := lat, lon := lon, radius := 200, color := "red" },
    { lat := lat, lon := lon, radius := 500, color := "orange" }]

/-- `df.iloc[::5]` followed by `reset_index(drop=True)`: keep the rows at
positions 0, 5, 10, ... of the frame. -/
def sampleEveryFifth (rows : List Row) : List Row :=
  ((rows.enum).filter (fun p => p.1 % 5 = 0)).map Prod.snd

/-- The per-row `try:`/`except` body inside `process_csv` of
`highlighted_map.py`: read the three columns (a missing one raises
`KeyError`, caught, row skipped), reverse-geocode with the default
`retries=3` (the computed address is never used afterwards), and add the
two circles.  Returns the circles this row adds to the map. -/
def hlProcessRow (geolocator : Geolocator) (row : Row) : List Circle :=
  match row.name, row.latitude, row.longitude with
  | some _, some lat, some lon =>
    let _address : String :=
      match (reverse_geocode_with_retry geolocator (lat, lon) 3).result with
      | some loc => loc.address
      | none => "Address not found"
    add_circle_to_map [] lat lon
  | _, _, _ => []

/-- Observable behaviour of one `process_csv` run of `highlighted_map.py`:
the circles on the saved map in insertion order, and the number of
`time.sleep(2)` pauses performed by the batch loop. -/
structure CircleTrace where
  circles : List Circle
  batchSleeps : Nat
deriving DecidableEq, Repr

/-- `process_csv(file_path, batch_size)` from `highlighted_map.py`:
down-sample to every 5th row, then iterate over the batches of the
sampled frame, process every sampled row in order, and end every batch
iteration with `time.sleep(2)`. -/
def hl_process_csv (geolocator : Geolocator) (rows : List Row)
    (batch_size : Nat) : CircleTrace :=
  { circles := ((pyRange (sampleEveryFifth rows).length batch_size).map
      (fun s => (batchAt (sampleEveryFifth rows) batch_size s).flatMap
        (hlProcessRow geolocator))).flatten,
    batchSleeps := (pyRange (sampleEveryFifth rows).length batch_size).length }

/-- One capture record of `crocodile_capture_data.csv` as
`crocodile_capture_data.py` uses it: its `ZONE_NAME` and the `YEAR`
extracted from `DATE_CAPTURED`. -/
structure CaptureRow where
  zone : String
  year : Int
deriving DecidableEq, Repr

/-- A pandas index label: the `YEAR` values are int64, the `ZONE_NAME`
values are strings; labels of different dtypes never match under
`reindex`. -/
inductive Label
  | int (i : Int)
  | str (s : String)
deriving DecidableEq, Repr

/-- The distinct values of a column, in order of first appearance
(the group keys produced by `groupby`). -/
def distinctVals {α : Type} [DecidableEq α] (l : List α) : List α := l.dedup

/-- `data_df.groupby(['YEAR', 'ZONE_NAME']).size().unstack(fill_value=0)`:
a frame whose row index is the distinct years, whose columns are the
distinct zone names, and whose cell `(y, z)` is the number of capture
records with year `y` and zone `z` (0 when the pair never occurs). -/
def yearly_totals (rows : List CaptureRow) : List (Int × List Nat) :=
  (distinctVals (rows.map (·.year))).map (fun y =>
    (y, (distinctVals (rows.map (·.zone))).map (fun z =>
      (rows.filter (fun r => decide (r.year = y) && decide (r.zone = z))).length)))

/-- `yearly_totals.sum(axis=1)`: a series indexed by the distinct `YEAR`
labels whose value at year `y` is the sum of that year's row of the
frame. -/
def yearTotalsSum (rows : List CaptureRow) : List (Label × Nat) :=
  (yearly_totals rows).map (fun p => (Label.int p.1, p.2.sum))

/-- `series.reindex(keys)` at one key: the series value at an index label
equal to `k`, or missing (`NaN`) when no label matches. -/
def seriesLookup (s : List (Label × Nat)) (k : Label) : Option Nat :=
  (s.find? (fun p => decide (p.1 = k))).map (·.2)

/-- `data_df['YEAR_TOTAL'] = yearly_totals.sum(axis=1).reindex(data_df['ZONE_NAME']).values`:
the column assigned to the frame, one value per capture record, `none`
standing for `NaN`. -/
def YEAR_TOTAL (rows : List CaptureRow) : List (Option Nat) :=
  rows.map (fun r => seriesLookup (yearTotalsSum rows) (Label.str r.zone))

/-- The number of capture records of zone `z` in year `y`: the
per-zone-per-year breakdown the spec asks about. -/
def captureCount (rows : List CaptureRow) (z : String) (y : Int) : Nat :=
  (rows.filter (fun r => decide (r.zone = z) && decide (r.year = y))).length

/-- A geolocator whose service is permanently unavailable. -/
def geoUnavail : Geolocator := fun _ _ => GeoResult.unavailable

/-- A geolocator that always answers with the same found address. -/
def geoFound : Geolocator := fun _ _ => GeoResult.ok (some { address := "X" })

/-- A geolocator that times out on the first call and reports the service
unavailable on the second. -/
def geoFlaky : Geolocator := fun _ n =>
  if n = 1 then GeoResult.unavailable else GeoResult.timedOut

/-- The geolocator of the spec's worked example: the lookup resolves to
`"123 Example Rd"`. -/
def geoSiteA : Geolocator := fun _ _ => GeoResult.ok (some { address := "123 Example Rd" })

/-- The input row of the spec's worked example. -/
def rowSiteA : Row :=
  { name := some "Site A", latitude := some (-12.46), longitude := some (130.84) }

/-- A small complete row used as concrete input in witnesses. -/
def rowB : Row := { name := some "B", latitude := some 1, longitude := some 2 }

/-- A row whose `name` column is missing: reading it raises `KeyError`. -/
def rowNoName : Row := { name := none, latitude := some 1, longitude := some 2 }

/-- A concrete capture record used as concrete input in witnesses. -/
def captureRowA : CaptureRow := { zone := "Borroloola", year := 2020 }

/-- Call-count and sleep-total bounds for the retry loop, for any starting
attempt index. -/
theorem retryAux_bounds (reverse : Nat → GeoResult) :
    ∀ (r a : Nat), (retryAux reverse a r).calls ≤ r ∧
      (retryAux reverse a r).sleeps.sum ≤
        ((List.range r).map (fun j => 2 ^ (a + j))).sum := by
  intro r
  induction r with
  | zero => intro a; simp [retryAux]
  | succ n ih =>
    intro a
    rw [retryAux]
    cases reverse a with
    | ok loc => simp
    | timedOut =>
      have h := ih (a + 1)
      constructor
      · simpa using Nat.succ_le_succ h.1
      · have hfun : ((fun j => 2 ^ (a + j)) ∘ Nat.succ) = fun j => 2 ^ (a + 1 + j) := by
          funext j
          simp only [Function.comp]
          congr 1
          omega
        have hsum : ((List.range (n + 1)).map (fun j => 2 ^ (a + j))).sum
            = 2 ^ a + ((List.range n).map (fun j => 2 ^ (a + 1 + j))).sum := by
          rw [List.range_succ_eq_map]
          simp [List.map_map, hfun]
        simp only [List.sum_cons, hsum]
        exact Nat.add_le_add_left h.2 _
    | unavailable => simp

/-- If the service reports unavailable at attempt `k` and attempt `k` is
among the attempts made, the loop stops right there. -/
theorem retryAux_unavailable_stops (reverse : Nat → GeoResult)
    (k : Nat) (hk : reverse k = GeoResult.unavailable) :
    ∀ (r a : Nat), a ≤ k → k < a + (retryAux reverse a r).calls →
      (retryAux reverse a r).calls = k + 1 - a := by
  intro r
  induction r with
  | zero => intro a _ hlt; simp [retryAux] at hlt; omega
  | succ n ih =>
    intro a hak hlt
    cases hra : reverse a with
    | ok loc =>
      simp only [retryAux, hra] at hlt ⊢
      have haek : a = k := by omega
      rw [haek, hk] at hra
      exact absurd hra (by simp)
    | timedOut =>
      simp only [retryAux, hra] at hlt ⊢
      have hne : a ≠ k := by
        intro h
        rw [h, hk] at hra
        exact absurd hra (by simp)
      have h2 : k < (a + 1) + (retryAux reverse (a + 1) n).calls := by omega
      have h3 := ih (a + 1) (by omega) h2
      omega
    | unavailable =>
      simp only [retryAux, hra] at hlt ⊢
      omega

/-- Claim C1: for every coordinate pair and every retries value,
`reverse_geocode_with_retry` performs at most `retries` calls to the
geocoding service, and the total of the backoff delays it requests is at
most `2^0 + 2^1 + ... + 2^(retries-1)` seconds. -/
theorem retry_calls_and_backoff_bounded (geolocator : Geolocator)
    (coordinates : Rat × Rat) (retries : Int) :
    (reverse_geocode_with_retry geolocator coordinates retries).calls ≤ retries.toNat ∧
    (reverse_geocode_with_retry geolocator coordinates retries).sleeps.sum ≤
      ((List.range retries.toNat).map (fun k => 2 ^ k)).sum := by
  have h := retryAux_bounds (geolocator coordinates) retries.toNat 0
  refine ⟨h.1, ?_⟩
  have heq : ((List.range retries.toNat).map (fun j => 2 ^ (0 + j))).sum
      = ((List.range retries.toNat).map (fun k => 2 ^ k)).sum := by
    simp
  unfold reverse_geocode_with_retry
  rw [← heq]
  exact h.2

/-- Claim C2: whenever a run of `reverse_geocode_with_retry` sees a
service-unavailable failure on (0-indexed) attempt `k`, the loop breaks
there: exactly the attempts `0, ..., k` happen, none numbered greater
than `k`, regardless of how many retries remain. -/
theorem unavailable_stops_retrying (geolocator : Geolocator)
    (coordinates : Rat × Rat) (retries : Int) (k : Nat)
    (hk : geolocator coordinates k = GeoResult.unavailable)
    (hmade : k < (reverse_geocode_with_retry geolocator coordinates retries).calls) :
    (reverse_geocode_with_retry geolocator coordinates retries).calls = k + 1 := by
  unfold reverse_geocode_with_retry at hmade ⊢
  have h := retryAux_unavailable_stops (geolocator coordinates) k hk
    retries.toNat 0 (Nat.zero_le k) (by omega)
  omega

/-- Witness for C2: a geolocator that times out on attempt 0 and is
unavailable on attempt 1 makes exactly the two attempts 0 and 1 even
though `retries = 3` would allow a third. -/
theorem unavailable_stops_retrying_witness :
    geoFlaky (0, 0) 1 = GeoResult.unavailable ∧
    1 < (reverse_geocode_with_retry geoFlaky (0, 0) 3).calls ∧
    (reverse_geocode_with_retry geoFlaky (0, 0) 3).calls = 1 + 1 :=
  ⟨rfl, by decide, unavailable_stops_retrying geoFlaky (0, 0) 3 1 rfl (by decide)⟩

/-- Claim C10: with `retries = 0` (or any non-positive retries value,
since Python's `range` of a non-positive bound is empty)
`reverse_geocode_with_retry` returns `None` having made no service call
and requested no sleep. -/
theorem nonpositive_retries_no_calls (geolocator : Geolocator)
    (coordinates : Rat × Rat) (retries : Int) (h : retries ≤ 0) :
    reverse_geocode_with_retry geolocator coordinates retries =
      { result := none, calls := 0, sleeps := [] } := by
  unfold reverse_geocode_with_retry
  rw [Int.toNat_of_nonpos h]
  rfl

/-- Witness for C10 at `retries = 0`. -/
theorem nonpositive_retries_no_calls_witness :
    (0 : Int) ≤ 0 ∧
    reverse_geocode_with_retry geoFound (3, 4) 0 =
      { result := none, calls := 0, sleeps := [] } :=
  ⟨le_refl 0, nonpositive_retries_no_calls geoFound (3, 4) 0 (le_refl 0)⟩

/-- The batch starts `0, B, 2B, ...` slice the list into `⌈n/B⌉` chunks of
`B` elements (the last one shorter) that concatenate back to the list. -/
theorem chunks_take_flatten {α : Type} (B : Nat) (hB : 0 < B) :
    ∀ (k : Nat) (l : List α), k = (l.length + B - 1) / B →
      ((List.range k).map (fun i => (l.drop (i * B)).take B)).flatten = l := by
  intro k
  induction k with
  | zero =>
    intro l hlen
    have h0 : l.length = 0 := by
      by_contra hne
      have hpos : 0 < l.length := Nat.pos_of_ne_zero hne
      have : 0 < (l.length + B - 1) / B := by
        apply Nat.div_pos _ hB
        omega
      omega
    rw [List.length_eq_zero] at h0
    simp [h0]
  | succ n ih =>
    intro l hlen
    have hpos : 0 < l.length := by
      by_contra h
      have h0 : l.length = 0 := by omega
      rw [h0] at hlen
      have : (0 + B - 1) / B = 0 := Nat.div_eq_of_lt (by omega)
      omega
    obtain ⟨m, hm⟩ : ∃ m, l.length = m + 1 := ⟨l.length - 1, by omega⟩
    have hn : n = m / B := by
      have h1 : m + 1 + B - 1 = m + B := by omega
      rw [hm, h1, Nat.add_div_right m hB] at hlen
      omega
    have hih : n = ((l.drop B).length + B - 1) / B := by
      rw [List.length_drop, hm]
      rcases le_or_lt B (m + 1) with hle | hlt
      · have h2 : m + 1 - B + B - 1 = m := by omega
        rw [h2, hn]
      · have h2 : m + 1 - B = 0 := by omega
        rw [h2, Nat.div_eq_of_lt (by omega), hn, Nat.div_eq_of_lt (by omega)]
    have key : ((List.range (n + 1)).map (fun i => (l.drop (i * B)).take B)).flatten
        = l.take B ++
          ((List.range n).map (fun i => ((l.drop B).drop (i * B)).take B)).flatten := by
      rw [List.range_succ_eq_map, List.map_cons, List.map_map, List.flatten_cons]
      congr 1
      · simp
      · congr 1
        apply List.map_congr_left
        intro i _
        simp only [Function.comp, Nat.succ_eq_add_one]
        rw [List.drop_drop]
        congr 2
        ring
    rw [key, ih (l.drop B) hih, List.take_append_drop]

/-- `df.iloc[start : min(start+B, len(df))]` is just "`B` elements from
`start`": `take` already clamps at the end of the list. -/
theorem batchAt_eq_drop_take {α : Type} (l : List α) (B start : Nat) :
    batchAt l B start = (l.drop start).take B := by
  unfold batchAt
  rcases le_or_lt (start + B) l.length with hle | hlt
  · congr 1
    omega
  · have hmin : min (start + B) l.length - start = l.length - start := by omega
    rw [hmin]
    rw [List.take_of_length_le (by rw [List.length_drop])]
    rw [List.take_of_length_le (by rw [List.length_drop]; omega)]

/-- Processing a list batch-by-batch in order is the same as processing
each record of the list in order: the batching only groups the work. -/
theorem process_chunks_eq_flatMap {α β : Type} (f : α → List β) (l : List α)
    (B : Nat) (hB : 0 < B) :
    ((pyRange l.length B).map (fun s => (batchAt l B s).flatMap f)).flatten
      = l.flatMap f := by
  unfold pyRange
  rw [List.map_map]
  have h1 : ((fun s => (batchAt l B s).flatMap f) ∘ (· * B))
      = fun i => ((l.drop (i * B)).take B).flatMap f := by
    funext i
    simp only [Function.comp]
    rw [batchAt_eq_drop_take]
  rw [h1]
  have h2 : ∀ (chunks : List (List α)),
      (chunks.map (fun c => c.flatMap f)).flatten = chunks.flatten.flatMap f := by
    intro chunks
    induction chunks with
    | nil => simp
    | cons c cs ihc => simp [ihc]
  calc ((List.range ((l.length + B - 1) / B)).map
          (fun i => ((l.drop (i * B)).take B).flatMap f)).flatten
      = (((List.range ((l.length + B - 1) / B)).map
          (fun i => (l.drop (i * B)).take B)).map (fun c => c.flatMap f)).flatten := by
        rw [List.map_map]
        rfl
    _ = (((List.range ((l.length + B - 1) / B)).map
          (fun i => (l.drop (i * B)).take B)).flatten).flatMap f := h2 _
    _ = l.flatMap f := by rw [chunks_take_flatten B hB _ l rfl]

/-- The markers `process_csv` saves are exactly the per-row markers of
every row of the file, in file order. -/
theorem process_csv_markers (geolocator : Geolocator) (rows : List Row)
    (B : Nat) (hB : 0 < B) :
    (process_csv geolocator rows B).markers = rows.flatMap (processRow geolocator) := by
  have h := process_chunks_eq_flatMap (processRow geolocator) rows B hB
  simpa [process_csv] using h

/-- Counterexample to claim C3 as stated: a 1-record dataset with batch
size 100 makes `⌈1/100⌉ = 1` chunk, so the claim predicts
`⌈1/100⌉ - 1 = 0` inter-batch delays, but the loop body ends every
iteration with `time.sleep(2)`, so the run performs 1 delay. -/
theorem batch_delay_after_last_chunk :
    ¬ ((process_csv geoFound [rowB] 100).batchSleeps = (1 + 100 - 1) / 100 - 1) := by
  decide

/-- Claim C3 (amended): for a dataset of `N > 0` records and batch size
`B > 0`, `process_csv` processes the records in exactly `⌈N/B⌉`
contiguous chunks that concatenate back to the dataset, and performs
exactly `⌈N/B⌉` fixed 2-second delays — one at the end of every chunk,
including the last — rather than `⌈N/B⌉ - 1` delays strictly between
chunks. -/
theorem batches_and_sleeps (geolocator : Geolocator) (rows : List Row)
    (B : Nat) (hB : 0 < B) (hN : 0 < rows.length) :
    (pyRange rows.length B).length = (rows.length + B - 1) / B ∧
    ((pyRange rows.length B).map (batchAt rows B)).flatten = rows ∧
    (process_csv geolocator rows B).batchSleeps = (rows.length + B - 1) / B := by
  refine ⟨by simp [pyRange], ?_, by simp [process_csv, pyRange]⟩
  unfold pyRange
  rw [List.map_map]
  have h1 : (batchAt rows B ∘ (· * B)) = fun i => (rows.drop (i * B)).take B := by
    funext i
    simp only [Function.comp]
    rw [batchAt_eq_drop_take]
  rw [h1]
  exact chunks_take_flatten B hB _ rows rfl

/-- Witness for the amended C3: one record and batch size 100 give one
chunk and one delay. -/
theorem batches_and_sleeps_witness :
    0 < 100 ∧ 0 < [rowB].length ∧
    (process_csv geoFound [rowB] 100).batchSleeps = ([rowB].length + 100 - 1) / 100 :=
  ⟨by decide, by decide,
    (batches_and_sleeps geoFound [rowB] 100 (by decide) (by decide)).2.2⟩

/-- Claim C5: a row missing a required field (`name`, `latitude` or
`longitude`) contributes zero markers — the `KeyError` is caught — and
the map still consists of the per-row output of every other row of the
dataset, in order: the failure aborts nothing. -/
theorem missing_field_row_skipped (geolocator : Geolocator) (rows : List Row)
    (B i : Nat) (row : Row) (hB : 0 < B) (hi : rows[i]? = some row)
    (hmiss : row.name = none ∨ row.latitude = none ∨ row.longitude = none) :
    processRow geolocator row = [] ∧
    (process_csv geolocator rows B).markers
      = (rows.take i).flatMap (processRow geolocator)
        ++ (rows.drop (i + 1)).flatMap (processRow geolocator) := by
  have hskip : processRow geolocator row = [] := by
    unfold processRow
    cases hn : row.name with
    | none => rfl
    | some nm =>
      cases hl : row.latitude with
      | none => rfl
      | some la =>
        cases ho : row.longitude with
        | none => rfl
        | some lo => simp_all
  refine ⟨hskip, ?_⟩
  rw [process_csv_markers geolocator rows B hB]
  have h2 : rows.drop i = row :: rows.drop (i + 1) := by
    obtain ⟨hlt, hget⟩ := List.getElem?_eq_some.mp hi
    rw [List.drop_eq_getElem_cons hlt, hget]
  have hsplit : rows = rows.take i ++ row :: rows.drop (i + 1) := by
    have h1 := List.take_append_drop i rows
    rw [h2] at h1
    exact h1.symm
  conv_lhs => rw [hsplit]
  rw [List.flatMap_append, List.flatMap_cons, hskip]
  simp

/-- Witness for C5: a dataset whose first row lacks `name`; its output is
the output of the remaining rows alone. -/
theorem missing_field_row_skipped_witness :
    0 < 100 ∧ [rowNoName, rowB][0]? = some rowNoName ∧ rowNoName.name = none ∧
    (process_csv geoFound [rowNoName, rowB] 100).markers
      = ([rowNoName, rowB].take 0).flatMap (processRow geoFound)
        ++ ([rowNoName, rowB].drop 1).flatMap (processRow geoFound) :=
  ⟨by decide, by decide, rfl,
    (missing_field_row_skipped geoFound [rowNoName, rowB] 100 0 rowNoName
      (by decide) (by decide) (Or.inl rfl)).2⟩

/-- A row with all three required fields present yields exactly one
marker. -/
theorem processRow_valid_length (geolocator : Geolocator) (row : Row)
    (h : row.name ≠ none ∧ row.latitude ≠ none ∧ row.longitude ≠ none) :
    (processRow geolocator row).length = 1 := by
  obtain ⟨hn, hl, ho⟩ := h
  cases hn' : row.name with
  | none => exact absurd hn' hn
  | some nm =>
    cases hl' : row.latitude with
    | none => exact absurd hl' hl
    | some la =>
      cases ho' : row.longitude with
      | none => exact absurd ho' ho
      | some lo =>
        unfold processRow
        rw [hn', hl', ho']
        rfl

/-- Row-by-row processing of a dataset of complete rows yields one marker
per row. -/
theorem flatMap_processRow_length (geolocator : Geolocator) :
    ∀ (rows : List Row),
      (∀ row ∈ rows, row.name ≠ none ∧ row.latitude ≠ none ∧ row.longitude ≠ none) →
      (rows.flatMap (processRow geolocator)).length = rows.length := by
  intro rows
  induction rows with
  | nil => intro _; simp
  | cons r rs ih =>
    intro hvalid
    rw [List.flatMap_cons, List.length_append, List.length_cons]
    rw [processRow_valid_length geolocator r (hvalid r (List.mem_cons_self r rs))]
    rw [ih (fun row hrow => hvalid row (List.mem_cons_of_mem r hrow))]
    omega

/-- Claim C6: on a dataset of complete records — duplicates of the same
coordinates included — the saved map carries exactly one marker per
input record; nothing is deduplicated or merged. -/
theorem one_annotation_per_record (geolocator : Geolocator) (rows : List Row)
    (B : Nat) (hB : 0 < B)
    (hvalid : ∀ row ∈ rows, row.name ≠ none ∧ row.latitude ≠ none ∧ row.longitude ≠ none) :
    (process_csv geolocator rows B).markers.length = rows.length := by
  rw [process_csv_markers geolocator rows B hB]
  exact flatMap_processRow_length geolocator rows hvalid

/-- Witness for C6 on a dataset of two records with identical
coordinates: both markers are kept. -/
theorem one_annotation_per_record_witness :
    0 < 100 ∧
    (process_csv geoFound [rowB, rowB] 100).markers.length = [rowB, rowB].length :=
  ⟨by decide, one_annotation_per_record geoFound [rowB, rowB] 100 (by decide) (by decide)⟩

/-- Counterexample to claim C7 as stated: with the service permanently
unavailable, the single marker produced for a complete row does carry a
popup label — the text `"Address: Address not found"` — rather than no
address label. -/
theorem unavailable_marker_carries_label :
    processRow geoUnavail rowB
      = [{ lat := 1, lon := 2, popup := some "Address: Address not found" }] ∧
    processRow geoUnavail rowB
      ≠ [{ lat := 1, lon := 2, popup := none }] := by
  constructor
  · decide
  · decide

/-- Claim C7 (amended): for a record whose required fields are present,
when the lookup fails (service unavailable, so the retry helper returned
`None`), the record is still annotated with exactly one marker at its
coordinates; the failed lookup is treated as the sentinel address
`"Address not found"`, and the marker's popup carries the label
`"Address: Address not found"` rather than no label. -/
theorem unavailable_still_annotated (geolocator : Geolocator) (row : Row)
    (nm : String) (la lo : Rat)
    (hn : row.name = some nm) (hl : row.latitude = some la)
    (ho : row.longitude = some lo)
    (hfail : (reverse_geocode_with_retry geolocator (la, lo) 3).result = none) :
    processRow geolocator row
      = [{ lat := la, lon := lo, popup := some "Address: Address not found" }] := by
  have hstep : processRow geolocator row
      = add_marker_to_map [] la lo
          (match (reverse_geocode_with_retry geolocator (la, lo) 3).result with
            | some loc => loc.address
            | none => "Address not found") := by
    unfold processRow
    rw [hn, hl, ho]
  rw [hstep, hfail]
  rfl

/-- Witness for the amended C7: a complete row under a permanently
unavailable service. -/
theorem unavailable_still_annotated_witness :
    rowB.name = some "B" ∧
    (reverse_geocode_with_retry geoUnavail (1, 2) 3).result = none ∧
    processRow geoUnavail rowB
      = [{ lat := 1, lon := 2, popup := some "Address: Address not found" }] :=
  ⟨rfl, rfl, unavailable_still_annotated geoUnavail rowB "B" 1 2 rfl rfl rfl rfl⟩

/-- Claim C8: the worked example — for the input row
`{name: "Site A", latitude: -12.46, longitude: 130.84}` with the lookup
resolving to `"123 Example Rd"`, the combined-map script adds exactly
one marker, at `(-12.46, 130.84)`, with popup text
`"Address: 123 Example Rd"`. -/
theorem site_a_single_marker :
    (process_csv geoSiteA [rowSiteA] 100).markers
      = [{ lat := -12.46, lon := 130.84, popup := some "Address: 123 Example Rd" }] := by
  rfl

/-- The circles `process_csv` of `highlighted_map.py` saves are exactly
the per-row circles of every sampled row, in order. -/
theorem hl_process_csv_circles (geolocator : Geolocator) (rows : List Row)
    (B : Nat) (hB : 0 < B) :
    (hl_process_csv geolocator rows B).circles
      = (sampleEveryFifth rows).flatMap (hlProcessRow geolocator) := by
  have h := process_chunks_eq_flatMap (hlProcessRow geolocator) (sampleEveryFifth rows) B hB
  simpa [hl_process_csv] using h

/-- Among `0, ..., n-1` exactly `⌈n/5⌉` indices are multiples of 5. -/
theorem countP_mod_five (n : Nat) :
    List.countP (fun i => decide (i % 5 = 0)) (List.range n) = (n + 4) / 5 := by
  induction n with
  | zero => simp
  | succ m ih =>
    rw [List.range_succ, List.countP_append, ih]
    by_cases h : m % 5 = 0
    · simp only [List.countP_cons, List.countP_nil, h]
      simp
      omega
    · simp only [List.countP_cons, List.countP_nil]
      simp [h]
      omega

/-- `df.iloc[::5]` keeps `⌈n/5⌉` of the `n` rows. -/
theorem sampleEveryFifth_length (rows : List Row) :
    (sampleEveryFifth rows).length = (rows.length + 4) / 5 := by
  unfold sampleEveryFifth
  rw [List.length_map, ← List.countP_eq_length_filter]
  have h1 : List.countP (fun p => decide (p.1 % 5 = 0)) rows.enum
      = List.countP ((fun i => decide (i % 5 = 0)) ∘ Prod.fst) rows.enum := rfl
  rw [h1, ← List.countP_map, List.enum_map_fst, countP_mod_five]

/-- Every sampled row is a row of the dataset. -/
theorem sampleEveryFifth_subset (rows : List Row) :
    ∀ row ∈ sampleEveryFifth rows, row ∈ rows := by
  intro row hrow
  unfold sampleEveryFifth at hrow
  obtain ⟨p, hp, hpe⟩ := List.mem_map.mp hrow
  have hpmem := (List.mem_filter.mp hp).1
  have hsnd := List.enum_map_snd rows
  rw [← hsnd, ← hpe]
  exact List.mem_map_of_mem Prod.snd hpmem

/-- A complete row yields exactly the two circles of
`add_circle_to_map`. -/
theorem hlProcessRow_valid_length (geolocator : Geolocator) (row : Row)
    (h : row.name ≠ none ∧ row.latitude ≠ none ∧ row.longitude ≠ none) :
    (hlProcessRow geolocator row).length = 2 := by
  obtain ⟨hn, hl, ho⟩ := h
  cases hn' : row.name with
  | none => exact absurd hn' hn
  | some nm =>
    cases hl' : row.latitude with
    | none => exact absurd hl' hl
    | some la =>
      cases ho' : row.longitude with
      | none => exact absurd ho' ho
      | some lo =>
        unfold hlProcessRow
        rw [hn', hl', ho']
        rfl

/-- Row-by-row circle output of a dataset of complete rows: two circles
per row. -/
theorem flatMap_hlProcessRow_length (geolocator : Geolocator) :
    ∀ (rows : List Row),
      (∀ row ∈ rows, row.name ≠ none ∧ row.latitude ≠ none ∧ row.longitude ≠ none) →
      (rows.flatMap (hlProcessRow geolocator)).length = 2 * rows.length := by
  intro rows
  induction rows with
  | nil => intro _; simp
  | cons r rs ih =>
    intro hvalid
    rw [List.flatMap_cons, List.length_append, List.length_cons]
    rw [hlProcessRow_valid_length geolocator r (hvalid r (List.mem_cons_self r rs))]
    rw [ih (fun row hrow => hvalid row (List.mem_cons_of_mem r hrow))]
    omega

/-- Claim C9: in `highlighted_map.py`, only the rows at positions
0, 5, 10, ... are processed; each complete row adds exactly the
200-metre red circle and the 500-metre orange circle at its coordinates;
and a fully successful run over `N` complete rows yields exactly
`2 * ⌈N/5⌉` circles. -/
theorem highlighted_every_fifth_two_circles (geolocator : Geolocator)
    (rows : List Row) (B : Nat) (hB : 0 < B)
    (hvalid : ∀ row ∈ rows, row.name ≠ none ∧ row.latitude ≠ none ∧ row.longitude ≠ none) :
    (hl_process_csv geolocator rows B).circles
      = (sampleEveryFifth rows).flatMap (hlProcessRow geolocator) ∧
    (∀ (nm : String) (la lo : Rat) (row : Row),
      row.name = some nm → row.latitude = some la → row.longitude = some lo →
      hlProcessRow geolocator row
        = [{ lat := la, lon := lo, radius := 200, color := "red" },
           { lat := la, lon := lo, radius := 500, color := "orange" }]) ∧
    (hl_process_csv geolocator rows B).circles.length = 2 * ((rows.length + 4) / 5) := by
  refine ⟨hl_process_csv_circles geolocator rows B hB, ?_, ?_⟩
  · intro nm la lo row hn hl ho
    unfold hlProcessRow
    rw [hn, hl, ho]
    rfl
  · rw [hl_process_csv_circles geolocator rows B hB]
    rw [flatMap_hlProcessRow_length geolocator (sampleEveryFifth rows)
        (fun row hrow => hvalid row (sampleEveryFifth_subset rows row hrow))]
    rw [sampleEveryFifth_length]

/-- Witness for C9 on six complete rows: rows 0 and 5 are sampled, giving
`2 * ⌈6/5⌉ = 4` circles. -/
theorem highlighted_every_fifth_two_circles_witness :
    0 < 100 ∧
    (hl_process_csv geoFound [rowB, rowB, rowB, rowB, rowB, rowB] 100).circles.length
      = 2 * (([rowB, rowB, rowB, rowB, rowB, rowB].length + 4) / 5) :=
  ⟨by decide,
    (highlighted_every_fifth_two_circles geoFound [rowB, rowB, rowB, rowB, rowB, rowB]
      100 (by decide) (by decide)).2.2⟩

/-- Reindexing the year-indexed sum by a zone-name label never finds a
matching index label: the dtypes differ, so the value is missing. -/
theorem seriesLookup_str_none (rows : List CaptureRow) (z : String) :
    seriesLookup (yearTotalsSum rows) (Label.str z) = none := by
  unfold seriesLookup
  have hnone : (yearTotalsSum rows).find? (fun p => decide (p.1 = Label.str z)) = none := by
    rw [List.find?_eq_none]
    intro x hx
    unfold yearTotalsSum at hx
    obtain ⟨p, _, hpe⟩ := List.mem_map.mp hx
    rw [← hpe]
    simp
  rw [hnone]
  rfl

/-- Claim C4: the `YEAR_TOTAL` value assigned to each row of the
capture-data frame is the one value the reindexed sum broadcasts to
every row — the zone-name keys never match the year-indexed sum, so the
value is the missing value `NaN` (`none`), identical for all rows
regardless of the row's year — and for no row does it equal the
per-zone-per-year capture count of that row's zone and year. -/
theorem year_total_broadcast_not_per_zone_year (rows : List CaptureRow)
    (i : Nat) (r : CaptureRow) (hi : rows[i]? = some r) :
    (YEAR_TOTAL rows)[i]? = some none ∧
    (YEAR_TOTAL rows)[i]? ≠ some (some (captureCount rows r.zone r.year)) := by
  have h1 : (YEAR_TOTAL rows)[i]? = some none := by
    unfold YEAR_TOTAL
    rw [List.getElem?_map, hi]
    simp [seriesLookup_str_none]
  refine ⟨h1, ?_⟩
  rw [h1]
  simp

/-- Witness for C4 on a one-record frame: the assigned value is `NaN`,
not the record's per-zone-per-year count (which is 1). -/
theorem year_total_broadcast_witness :
    [captureRowA][0]? = some captureRowA ∧
    (YEAR_TOTAL [captureRowA])[0]? = some none ∧
    (YEAR_TOTAL [captureRowA])[0]?
      ≠ some (some (captureCount [captureRowA] captureRowA.zone captureRowA.year)) :=
  ⟨rfl,
    (year_total_broadcast_not_per_zone_year [captureRowA] 0 captureRowA rfl).1,
    (year_total_broadcast_not_per_zone_year [captureRowA] 0 captureRowA rfl).2⟩
